import Mathlib

/-!
Shallow embedding of lxd/container.go (config/device validation and the
container lifecycle orchestration flows), together with theorems checking
the natural-language specification against it.

Conventions:
- Go `map[string]string` device/config maps are embedded as association
  lists; indexing a missing key yields `""` exactly as in Go.
- External collaborators (catalog, storage driver, runtime driver, host
  probes) are oracles carried in environment structures; each field models
  one external call of the source file.
- Error message strings follow the source; apostrophes and single quotes
  appearing in the original Go messages are written with the \x27 escape.
-/

deriving instance DecidableEq for Except

namespace LXD

/-- Errors. Go compares some errors by identity (db.ErrAlreadyDefined,
db.ErrNoSuchObject); all other errors are message-carrying. -/
inductive Err where
  | alreadyDefined
  | noSuchObject
  | other (msg : String)
deriving DecidableEq, Repr

/-- A device definition or a config map: Go map[string]string as an
association list. -/
abbrev SMap := List (String × String)

/-- Go map indexing: yields the value, or "" when the key is absent. -/
def mGet (m : SMap) (k : String) : String :=
  match m.find? (fun p => p.1 == k) with
  | some p => p.2
  | none => ""

/-- Go two-result map indexing (`v, ok := m[k]`): presence of the key. -/
def mHas (m : SMap) (k : String) : Bool :=
  (m.find? (fun p => p.1 == k)).isSome

/-- Go map assignment m[k] = v: replace the binding if present, else add it. -/
def mSet (m : SMap) (k v : String) : SMap :=
  if mHas m k then m.map (fun p => if p.1 == k then (p.1, v) else p) else m ++ [(k, v)]

/-- A device map: Go types.Devices (map from device name to definition). -/
abbrev DevMap := List (String × SMap)

/-- Character-wise ASCII lowercasing (strings.ToLower for the ASCII
values compared here). -/
def lowerString (s : String) : String :=
  ⟨s.data.map Char.toLower⟩

/-- Modelled from the spec: shared.IsTrue (external helper used by the
validator) — a config value counts as true when it is one of the usual
affirmative spellings, compared case-insensitively. -/
def isTrue (value : String) : Bool :=
  ["true", "1", "yes", "on"].contains (lowerString value)

/-- Modelled from the spec: the osarch architecture identifiers referenced
by security.syscalls.blacklist_compat (external integer constants; the
specific values are irrelevant, only their identity is used). -/
def ARCH_64BIT_INTEL_X86 : Int := 2

def ARCH_64BIT_ARMV8_LITTLE_ENDIAN : Int := 4

def ARCH_64BIT_POWERPC_BIG_ENDIAN : Int := 6

/-- Host/collaborator probes consumed by containerValidDevices; each field
models one external call of the source. -/
structure DeviceEnv where
  isDir : String → Bool
  pathExists : String → Bool
  deviceGetAttributes : String → Except Err String
  liblxcAtLeast3 : Bool
  storagePoolGetID : String → Except Err Int
  isAbs : String → Bool
deriving Inhabited

/-- containerValidDeviceConfigKey (container.go lines 88-250): is key k
allowed for a device of type t. -/
def containerValidDeviceConfigKey (t k : String) : Bool :=
  if k == "type" then true
  else if t == "unix-char" || t == "unix-block" then
    ["gid", "major", "minor", "mode", "source", "path", "required", "uid"].contains k
  else if t == "nic" then
    ["limits.max", "limits.ingress", "limits.egress", "host_name", "hwaddr",
     "mtu", "name", "nictype", "parent", "vlan", "ipv4.address", "ipv6.address",
     "security.mac_filtering", "maas.subnet.ipv4", "maas.subnet.ipv6"].contains k
  else if t == "disk" then
    ["limits.max", "limits.read", "limits.write", "optional", "path", "readonly",
     "size", "source", "recursive", "pool", "propagation"].contains k
  else if t == "usb" then
    ["vendorid", "productid", "mode", "gid", "uid", "required"].contains k
  else if t == "gpu" then
    ["vendorid", "productid", "id", "pci", "mode", "gid", "uid"].contains k
  else if t == "infiniband" then
    ["hwaddr", "mtu", "name", "nictype", "parent"].contains k
  else if t == "proxy" then
    ["bind", "connect", "gid", "listen", "mode", "uid"].contains k
  else if t == "none" then false
  else false

/-- The fixed device type enumeration (container.go line 335). -/
def deviceTypes : List String :=
  ["disk", "gpu", "infiniband", "nic", "none", "proxy", "unix-block", "unix-char", "usb"]

/-- The per-device key loop of containerValidDevices (lines 339-343): first
key not valid for the type aborts with the invalid-key error. -/
def deviceKeyLoop (t : String) : SMap → Except Err Unit
  | [] => .ok ()
  | (k, _) :: rest =>
    if containerValidDeviceConfigKey t k then deviceKeyLoop t rest
    else .error (.other ("Invalid device configuration key for " ++ t ++ ": " ++ k))

/-- Duplicate disk path tracking (lines 369-374): only applied when not
expanded; records the path, or rejects a repeated path. -/
def diskDupCheck (expanded : Bool) (paths : List String) (m : SMap) : Except Err (List String) :=
  if !expanded && !(paths.contains (mGet m "path")) then .ok (paths ++ [mGet m "path"])
  else if !expanded then
    .error (.other ("More than one disk device uses the same path: " ++ mGet m "path" ++ "."))
  else .ok paths

/-- Disk check, line 376: a path is required. -/
def diskPathCheck (m : SMap) : Except Err Unit :=
  if mGet m "path" == "" then
    .error (.other "Disk entry is missing the required \"path\" property.")
  else .ok ()

/-- Disk check, line 380: a source is required unless the path is the root. -/
def diskMissingSourceCheck (m : SMap) : Except Err Unit :=
  if mGet m "source" == "" && mGet m "path" != "/" then
    .error (.other "Disk entry is missing the required \"source\" property.")
  else .ok ()

/-- Disk check, line 384: the root disk may not carry a source. -/
def diskRootSourceCheck (m : SMap) : Except Err Unit :=
  if mGet m "path" == "/" && mGet m "source" != "" then
    .error (.other "Root disk entry may not have a \"source\" property set.")
  else .ok ()

/-- Disk check, line 388: only the root disk may carry a size quota. -/
def diskSizeCheck (m : SMap) : Except Err Unit :=
  if mGet m "size" != "" && mGet m "path" != "/" then
    .error (.other "Only the root disk may have a size quota.")
  else .ok ()

/-- Disk check, line 392: recursive only for additional bind-mounted paths. -/
def diskRecursiveCheck (env : DeviceEnv) (m : SMap) : Except Err Unit :=
  if (mGet m "path" == "/" || !(env.isDir (mGet m "source"))) && mGet m "recursive" != "" then
    .error (.other "The recursive option is only supported for additional bind-mounted paths.")
  else .ok ()

/-- Disk check, lines 396-405: pool-backed disks use relative sources and an
existing pool. -/
def diskPoolCheck (env : DeviceEnv) (m : SMap) : Except Err Unit :=
  if mGet m "pool" != "" then
    if env.isAbs (mGet m "source") then
      .error (.other "Storage volumes cannot be specified as absolute paths.")
    else
      match env.storagePoolGetID (mGet m "pool") with
      | .error _ => .error (.other ("The \"" ++ mGet m "pool" ++ "\" storage pool doesn\x27t exist."))
      | .ok _ => .ok ()
  else .ok ()

/-- Disk check, lines 407-415: propagation needs liblxc 3.0 and a known mode. -/
def diskPropagationCheck (env : DeviceEnv) (m : SMap) : Except Err Unit :=
  if mGet m "propagation" != "" then
    if !env.liblxcAtLeast3 then
      .error (.other "liblxc 3.0 is required for mount propagation configuration")
    else if !(["private", "shared", "slave", "unbindable",
               "rprivate", "rshared", "rslave", "runbindable"].contains (mGet m "propagation")) then
      .error (.other ("Invalid propagation mode \x27" ++ mGet m "propagation" ++ "\x27"))
    else .ok ()
  else .ok ()

/-- The path-independent disk checks (lines 376-415), in source order. -/
def diskUnitChecks (env : DeviceEnv) (m : SMap) : Except Err Unit :=
  match diskPathCheck m with
  | .error e => .error e
  | .ok _ =>
    match diskMissingSourceCheck m with
    | .error e => .error e
    | .ok _ =>
      match diskRootSourceCheck m with
      | .error e => .error e
      | .ok _ =>
        match diskSizeCheck m with
        | .error e => .error e
        | .ok _ =>
          match diskRecursiveCheck env m with
          | .error e => .error e
          | .ok _ =>
            match diskPoolCheck env m with
            | .error e => .error e
            | .ok _ => diskPropagationCheck env m

/-- The disk branch of the per-device checks (lines 369-415): the
duplicate-path bookkeeping followed by the path-independent checks. -/
def deviceDiskChecks (env : DeviceEnv) (expanded : Bool) (paths : List String)
    (m : SMap) : Except Err (List String) :=
  match diskDupCheck expanded paths m with
  | .error e => .error e
  | .ok paths =>
    match diskUnitChecks env m with
    | .error e => .error e
    | .ok _ => .ok paths

/-- The nic branch (lines 345-356). -/
def deviceNicChecks (m : SMap) : Except Err Unit :=
  if mGet m "nictype" == "" then .error (.other "Missing nic type")
  else if !(["bridged", "macvlan", "p2p", "physical", "sriov"].contains (mGet m "nictype")) then
    .error (.other ("Bad nic type: " ++ mGet m "nictype"))
  else if ["bridged", "macvlan", "physical", "sriov"].contains (mGet m "nictype")
          && mGet m "parent" == "" then
    .error (.other ("Missing parent for " ++ mGet m "nictype" ++ " type nic"))
  else .ok ()

/-- The infiniband branch (lines 357-368). -/
def deviceInfinibandChecks (m : SMap) : Except Err Unit :=
  if mGet m "nictype" == "" then .error (.other "Missing nic type")
  else if !(["physical", "sriov"].contains (mGet m "nictype")) then
    .error (.other ("Bad nic type: " ++ mGet m "nictype"))
  else if mGet m "parent" == "" then
    .error (.other ("Missing parent for " ++ mGet m "nictype" ++ " type nic"))
  else .ok ()

/-- The unix-char/unix-block branch (lines 416-442). -/
def deviceUnixChecks (env : DeviceEnv) (m : SMap) : Except Err Unit :=
  if mGet m "source" == "" && mGet m "path" == "" then
    .error (.other "Unix device entry is missing the required \"source\" or \"path\" property.")
  else if (mGet m "required" == "" || isTrue (mGet m "required"))
          && (mGet m "major" == "" || mGet m "minor" == "") then
    let srcPath := if mHas m "source" then mGet m "source" else mGet m "path"
    if !env.pathExists srcPath then
      .error (.other "The device path doesn\x27t exist on the host and major/minor wasn\x27t specified.")
    else
      match env.deviceGetAttributes srcPath with
      | .error e => .error e
      | .ok dType =>
        if mGet m "type" == "unix-char" && dType != "c" then
          .error (.other "Path specified for unix-char device is a block device.")
        else if mGet m "type" == "unix-block" && dType != "b" then
          .error (.other "Path specified for unix-block device is a character device.")
        else .ok ()
  else .ok ()

/-- The usb branch (lines 443-446). -/
def deviceUsbChecks (m : SMap) : Except Err Unit :=
  if mGet m "vendorid" == "" then .error (.other "Missing vendorid for USB device.")
  else .ok ()

/-- The gpu branch (lines 447-458). -/
def deviceGpuChecks (env : DeviceEnv) (m : SMap) : Except Err Unit :=
  if mGet m "pci" != "" && !(env.pathExists ("/sys/bus/pci/devices/" ++ mGet m "pci")) then
    .error (.other ("Invalid PCI address (no device found): " ++ mGet m "pci"))
  else if mGet m "pci" != "" && (mGet m "id" != "" || mGet m "productid" != "" || mGet m "vendorid" != "") then
    .error (.other "Cannot use id, productid or vendorid when pci is set")
  else if mGet m "id" != "" && (mGet m "pci" != "" || mGet m "productid" != "" || mGet m "vendorid" != "") then
    .error (.other "Cannot use pci, productid or vendorid when id is set")
  else .ok ()

/-- The proxy branch (lines 459-471). -/
def deviceProxyChecks (m : SMap) : Except Err Unit :=
  if mGet m "listen" == "" then
    .error (.other "Proxy device entry is missing the required \"listen\" property.")
  else if mGet m "connect" == "" then
    .error (.other "Proxy device entry is missing the required \"connect\" property.")
  else if (!((mGet m "listen").startsWith "unix:") || (mGet m "listen").startsWith "unix:@")
          && (mGet m "uid" != "" || mGet m "gid" != "" || mGet m "mode" != "") then
    .error (.other "Only proxy devices for non-abstract unix sockets can carry uid, gid, or mode properties")
  else .ok ()

/-- One iteration of the device loop of containerValidDevices (lines
330-476): type checks, key table check, then the type-specific branch.
Returns the updated disk path accumulator. -/
def containerValidDevicesOne (env : DeviceEnv) (expanded : Bool) (paths : List String)
    (name : String) (m : SMap) : Except Err (List String) :=
  if mGet m "type" == "" then
    .error (.other ("Missing device type for device \x27" ++ name ++ "\x27"))
  else if !(deviceTypes.contains (mGet m "type")) then
    .error (.other ("Invalid device type for device \x27" ++ name ++ "\x27"))
  else
    match deviceKeyLoop (mGet m "type") m with
    | .error e => .error e
    | .ok _ =>
      if mGet m "type" == "nic" then
        match deviceNicChecks m with
        | .error e => .error e
        | .ok _ => .ok paths
      else if mGet m "type" == "infiniband" then
        match deviceInfinibandChecks m with
        | .error e => .error e
        | .ok _ => .ok paths
      else if mGet m "type" == "disk" then
        deviceDiskChecks env expanded paths m
      else if mGet m "type" == "unix-char" || mGet m "type" == "unix-block" then
        match deviceUnixChecks env m with
        | .error e => .error e
        | .ok _ => .ok paths
      else if mGet m "type" == "usb" then
        match deviceUsbChecks m with
        | .error e => .error e
        | .ok _ => .ok paths
      else if mGet m "type" == "gpu" then
        match deviceGpuChecks env m with
        | .error e => .error e
        | .ok _ => .ok paths
      else if mGet m "type" == "proxy" then
        match deviceProxyChecks m with
        | .error e => .error e
        | .ok _ => .ok paths
      else if mGet m "type" == "none" then .ok paths
      else .error (.other ("Invalid device type: " ++ mGet m "type"))

/-- The device loop of containerValidDevices, threading the disk path
accumulator through the map entries. -/
def containerValidDevicesLoop (env : DeviceEnv) (expanded : Bool)
    (paths : List String) : DevMap → Except Err (List String)
  | [] => .ok paths
  | (name, m) :: rest =>
    match containerValidDevicesOne env expanded paths name m with
    | .error e => .error e
    | .ok paths => containerValidDevicesLoop env expanded paths rest

/-- Modelled from the spec: shared.GetRootDiskDevice (external helper; spec
sections 4.1 and glossary). The root disk device is the entry with type
"disk", path "/" and no source; exactly one such entry must exist. -/
def getRootDiskDevice (devs : DevMap) : Except Err (String × SMap) :=
  match devs.filter (fun p => mGet p.2 "type" == "disk" && mGet p.2 "path" == "/"
                              && mGet p.2 "source" == "") with
  | [d] => .ok d
  | [] => .error (.other "No root device could be found.")
  | _ => .error (.other "More than one root device found.")

/-- containerValidDevices (lines 322-488). A nil device map is accepted
outright; the expanded check requires a resolvable root disk device. -/
def containerValidDevices (env : DeviceEnv) (devices : Option DevMap)
    (_profile expanded : Bool) : Except Err Unit :=
  match devices with
  | none => .ok ()
  | some devs =>
    match containerValidDevicesLoop env expanded [] devs with
    | .error e => .error e
    | .ok _ =>
      if expanded then
        match getRootDiskDevice devs with
        | .error e => .error e
        | .ok _ => .ok ()
      else .ok ()

/-! ## Config validation -/

/-- Host facts and external helpers consumed by containerValidConfig; each
field models one external call of the source. `configKeyChecker` is
modelled from the spec: shared.ConfigKeyChecker returns a per-key value
checking function, or an unknown-key error when the key is not known.
`lxcValidConfigErr` models lxcValidConfig, `parseRawIdmapHostIds` models
parseRawIdmap (we keep only the Hostid field of each parsed entry), and
`lxdUnprivilegedOnly` models os.Getenv("LXD_UNPRIVILEGED_ONLY"). -/
structure ConfigEnv where
  configKeyChecker : String → Except Err (String → Option Err)
  lxcValidConfigErr : String → Option Err
  architectures : List Int
  idmapSetPresent : Bool
  lxdUnprivilegedOnly : String
  parseRawIdmapHostIds : String → Except Err (List Int)

/-- containerValidConfigKey (lines 62-84). -/
def containerValidConfigKey (env : ConfigEnv) (key value : String) : Except Err Unit :=
  match env.configKeyChecker key with
  | .error e => .error e
  | .ok f =>
    match f value with
    | some e => .error e
    | none =>
      if key == "raw.lxc" then
        match env.lxcValidConfigErr value with
        | some e => .error e
        | none => .ok ()
      else if key == "security.syscalls.blacklist_compat" then
        if env.architectures.any (fun arch =>
            arch == ARCH_64BIT_INTEL_X86 || arch == ARCH_64BIT_ARMV8_LITTLE_ENDIAN
              || arch == ARCH_64BIT_POWERPC_BIG_ENDIAN) then
          .ok ()
        else
          .error (.other "security.syscalls.blacklist_compat isn\x27t supported on this architecture")
      else .ok ()

/-- allowedUnprivilegedOnlyMap (lines 252-265). -/
def allowedUnprivilegedOnlyMap (env : ConfigEnv) (rawIdmap : String) : Except Err Unit :=
  match env.parseRawIdmapHostIds rawIdmap with
  | .error e => .error e
  | .ok hostIds =>
    if hostIds.contains 0 then
      .error (.other "Cannot map root user into container as LXD was configured to only allow unprivileged containers")
    else .ok ()

/-- The per-key loop of containerValidConfig (lines 272-285). -/
def containerValidConfigLoop (env : ConfigEnv) (profile : Bool) : SMap → Except Err Unit
  | [] => .ok ()
  | (k, v) :: rest =>
    if profile && k.startsWith "volatile." then
      .error (.other "Volatile keys can only be set on containers.")
    else if profile && k.startsWith "image." then
      .error (.other "Image keys can only be set on containers.")
    else
      match containerValidConfigKey env k v with
      | .error e => .error e
      | .ok _ => containerValidConfigLoop env profile rest

/-- containerValidConfig (lines 267-320). A nil config is accepted outright. -/
def containerValidConfig (env : ConfigEnv) (config : Option SMap)
    (profile expanded : Bool) : Except Err Unit :=
  match config with
  | none => .ok ()
  | some cfg =>
    match containerValidConfigLoop env profile cfg with
    | .error e => .error e
    | .ok _ =>
      let rawSeccomp := mHas cfg "raw.seccomp"
      let whitelist := mHas cfg "security.syscalls.whitelist"
      let blacklist := mHas cfg "security.syscalls.blacklist"
      let blacklistDefault := isTrue (mGet cfg "security.syscalls.blacklist_default")
      let blacklistCompat := isTrue (mGet cfg "security.syscalls.blacklist_compat")
      if rawSeccomp && (whitelist || blacklist || blacklistDefault || blacklistCompat) then
        .error (.other "raw.seccomp is mutually exclusive with security.syscalls*")
      else if whitelist && (blacklist || blacklistDefault || blacklistCompat) then
        .error (.other "security.syscalls.whitelist is mutually exclusive with security.syscalls.blacklist*")
      else if expanded && (mGet cfg "security.privileged" == ""
              || !(isTrue (mGet cfg "security.privileged"))) && !env.idmapSetPresent then
        .error (.other "LXD doesn\x27t have a uid/gid allocation. In this mode, only privileged containers are supported.")
      else if isTrue env.lxdUnprivilegedOnly then
        match (if mGet cfg "raw.idmap" != "" then allowedUnprivilegedOnlyMap env (mGet cfg "raw.idmap")
               else .ok ()) with
        | .error e => .error e
        | .ok _ =>
          if isTrue (mGet cfg "security.privileged") then
            .error (.other "LXD was configured to only allow unprivileged containers")
          else .ok ()
      else .ok ()

/-! ## Orchestration data model -/

/-- Side effects issued against the collaborators (storage driver, runtime
driver, filesystem, event sink) while a flow runs; recorded in order. -/
inductive Event where
  | removeLog (name : String)
  | containerCopy
  | snapshotCreate (name : String)
  | storageStart (name : String)
  | storageStop (name : String)
  | containerDelete (name : String)
  | configKeySet (key value : String)
  | setQuota (size : Int)
  | writeBackupFile (name : String)
  | mkdirStateDir (path : String)
  | migrateDump (path : String)
  | removeStateDir (path : String)
  | lifecycleEvent (source snapshot : String)
  | backupLoad (pool : String)
  | fixBackupPool
  | storageBackupCreate (name : String)
  | writeBackupIndex (name : String)
deriving DecidableEq, Repr

/-- The observable state a flow mutates: the catalog of container/snapshot
record names, the catalog of backup record names, and the trace of side
effects issued so far. -/
structure St where
  containers : List String
  backups : List String
  events : List Event
deriving DecidableEq, Repr

/-- Record a side effect. -/
def emit (st : St) (e : Event) : St :=
  { st with events := st.events ++ [e] }

/-- Record kind (db.CType). -/
inductive CType where
  | regular
  | snapshot
deriving DecidableEq, Repr

/-- db.ContainerArgs (the fields this file reads or writes). Nilable Go
fields are Options; timestamps are abstract integers. -/
structure ContainerArgs where
  id : Int
  name : String
  architecture : Int
  baseImage : String
  config : Option SMap
  ctype : CType
  devices : Option DevMap
  description : String
  ephemeral : Bool
  profiles : Option (List String)
  stateful : Bool
  creationDate : Int
  lastUsedDate : Int
deriving DecidableEq, Repr

/-- The properties of a concrete container handle that containerLXCCreate
or containerLXCLoad supplies beyond the catalog record. -/
structure CtrExtras where
  isRunning : Bool
  statePath : String
  expandedDevices : DevMap
deriving DecidableEq, Repr

/-- A container handle (the slice of the container interface these flows
read: Name, Architecture, Description, IsEphemeral, IsRunning, StatePath,
LocalConfig, LocalDevices, ExpandedDevices, Profiles). -/
structure Ctr where
  name : String
  architecture : Int
  description : String
  ephemeral : Bool
  isRunning : Bool
  statePath : String
  localConfig : Option SMap
  localDevices : Option DevMap
  expandedDevices : DevMap
  profiles : List String
deriving DecidableEq, Repr

/-- Modelled from the spec: containerLXCCreate / containerLXCLoad (external)
return a handle whose record properties mirror the catalog args. -/
def mkContainer (args : ContainerArgs) (ex : CtrExtras) : Ctr :=
  { name := args.name
    architecture := args.architecture
    description := args.description
    ephemeral := args.ephemeral
    isRunning := ex.isRunning
    statePath := ex.statePath
    localConfig := args.config
    localDevices := args.devices
    expandedDevices := ex.expandedDevices
    profiles := args.profiles.getD [] }

/-- db.ContainerBackupArgs (the fields this file reads). -/
structure BackupArgs where
  name : String
  containerID : Int
  containerOnly : Bool
  optimizedStorage : Bool
deriving DecidableEq, Repr

/-- A backup catalog row (db.ContainerBackup as read by
ContainerGetBackup). -/
structure BackupRow where
  id : Int
  containerID : Int
  creationDate : Int
  expiryDate : Int
  containerOnly : Bool
  optimizedStorage : Bool
deriving DecidableEq, Repr

/-- The in-memory backup handle built by containerBackupLoadByName. -/
structure Backup where
  container : Ctr
  id : Int
  name : String
  creationDate : Int
  expiryDate : Int
  containerOnly : Bool
  optimizedStorage : Bool
deriving DecidableEq, Repr

/-- backupInfo (the fields containerCreateFromBackup reads). -/
structure BackupInfo where
  name : String
  pool : String
  hasBinaryFormat : Bool
deriving DecidableEq, Repr

/-- Oracles for every external call the orchestration flows make. Each
field models the outcome of one collaborator call of the source file
(catalog reads, storage driver operations, runtime operations, host
probes); `Option Err` fields are `none` on success. -/
structure Env where
  cfgEnv : ConfigEnv
  devEnv : DeviceEnv
  validHostname : String → Bool
  archName : Int → Except Err String
  clusterProfiles : Except Err (List String)
  ctCreateExtraErr : String → Option Err
  newId : String → Int
  ctGet : String → Except Err (Int × Int)
  lxcCreate : ContainerArgs → Except Err CtrExtras
  sourceSnapshots : Except Err (List Ctr)
  containerCopyErr : Option Err
  snapshotCreateErr : Option Err
  storageStart : String → Except Err Bool
  storageTypeName : String
  parseByteSize : String → Except Err Int
  setQuotaErr : Option Err
  configKeySetErr : String → String → Option Err
  writeBackupFileErr : String → Option Err
  criuInstalled : Bool
  mkdirStateErr : Option Err
  migrateErr : Option Err
  poolInit : String → Except Err String
  defaultProfileDevices : Except Err DevMap
  backupLoadErr : String → Option Err
  fixBackupPoolErr : Option Err
  backupCreateExtraErr : String → Option Err
  backupGet : String → Except Err BackupRow
  containerNameById : Int → Except Err String
  ctArgsGet : String → Except Err ContainerArgs
  lxcLoad : ContainerArgs → Except Err CtrExtras
  storageBackupCreateErr : Option Err
  createBackupIndexErr : Option Err

/-- Remove every occurrence of a name from a catalog list. -/
def removeName (l : List String) (n : String) : List String :=
  l.filter (fun x => x != n)

/-- Modelled from the spec: the catalog ContainerRemove (compensating
delete of a container/snapshot record). -/
def containerRemoveDB (st : St) (name : String) : St :=
  { st with containers := removeName st.containers name }

/-- Modelled from the spec: the catalog ContainerBackupRemove. -/
def backupRemoveDB (st : St) (name : String) : St :=
  { st with backups := removeName st.backups name }

/-- Modelled from the spec: the catalog ContainerCreate — atomic
insert-if-absent on the record name; an oracle supplies any additional
database failure mode. -/
def containerCreateDB (env : Env) (st : St) (args : ContainerArgs) : Except Err (Int × St) :=
  if st.containers.contains args.name then .error .alreadyDefined
  else
    match env.ctCreateExtraErr args.name with
    | some e => .error e
    | none => .ok (env.newId args.name, { st with containers := args.name :: st.containers })

/-- Modelled from the spec: the catalog ContainerBackupCreate — atomic
insert-if-absent on the backup name. -/
def backupCreateDB (env : Env) (st : St) (name : String) : Except Err St :=
  if st.backups.contains name then .error .alreadyDefined
  else
    match env.backupCreateExtraErr name with
    | some e => .error e
    | none => .ok { st with backups := name :: st.backups }

/-- Does the string contain the snapshot delimiter "/" (strings.Contains
against shared.SnapshotDelimiter). -/
def containsSlash (s : String) : Bool :=
  s.data.contains '/'

/-- shared.IsSnapshot: the name contains the snapshot delimiter "/". -/
def isSnapshotName (name : String) : Bool :=
  containsSlash name

/-- Modelled from the spec: container.Delete (external) removes the catalog
record together with its storage. -/
def containerDelete (st : St) (name : String) : St :=
  emit (containerRemoveDB st name) (.containerDelete name)

/-! ## containerCreateInternal -/

/-- containerValidName (lines 48-60). -/
def containerValidName (env : Env) (name : String) : Except Err Unit :=
  if containsSlash name then
    .error (.other "The character \x27/\x27 is reserved for snapshots.")
  else if !(env.validHostname name) then
    .error (.other "Container name isn\x27t a valid hostname.")
  else .ok ()

/-- The default-filling prelude of containerCreateInternal (lines 961-980).
Indexing an empty architecture list is modelled with headD (Go would
panic there). -/
def containerCreateSetDefaults (env : Env) (args : ContainerArgs) : ContainerArgs :=
  let args := match args.profiles with
    | none => { args with profiles := some ["default"] }
    | some _ => args
  let args := match args.config with
    | none => { args with config := some [] }
    | some _ => args
  let args := if args.baseImage != "" then
      { args with config := some (mSet (args.config.getD []) "volatile.base_image" args.baseImage) }
    else args
  let args := match args.devices with
    | none => { args with devices := some [] }
    | some _ => args
  if args.architecture == 0 then
    { args with architecture := env.cfgEnv.architectures.headD 0 }
  else args

/-- The profile validation loop of containerCreateInternal (lines
1018-1029). -/
def profilesCheckLoop (profiles checked : List String) : List String → Except Err Unit
  | [] => .ok ()
  | p :: rest =>
    if !(profiles.contains p) then
      .error (.other ("Requested profile \x27" ++ p ++ "\x27 doesn\x27t exist"))
    else if checked.contains p then
      .error (.other "Duplicate profile found in request")
    else profilesCheckLoop profiles (checked ++ [p]) rest

/-- The defaulting and validation prefix of containerCreateInternal (lines
961-1029): everything before the catalog insert. -/
def containerCreateValidate (env : Env) (args0 : ContainerArgs) : Except Err ContainerArgs :=
  let args := containerCreateSetDefaults env args0
  match (match args.ctype with
         | .regular => containerValidName env args.name
         | .snapshot => .ok ()) with
  | .error e => .error e
  | .ok _ =>
    match containerValidConfig env.cfgEnv args.config false false with
    | .error e => .error e
    | .ok _ =>
      match containerValidDevices env.devEnv args.devices false false with
      | .error e => .error e
      | .ok _ =>
        match env.archName args.architecture with
        | .error e => .error e
        | .ok _ =>
          if !(env.cfgEnv.architectures.contains args.architecture) then
            .error (.other "Requested architecture isn\x27t supported by this host")
          else
            match env.clusterProfiles with
            | .error e => .error e
            | .ok profiles =>
              match profilesCheckLoop profiles [] (args.profiles.getD []) with
              | .error e => .error e
              | .ok _ => .ok args

/-- containerCreateInternal (lines 960-1066): validate, reserve the record,
wipe the old log, read back timestamps, build the container handle; the
reservation is removed again when a step after the insert fails. -/
def containerCreateInternal (env : Env) (st : St) (args0 : ContainerArgs) :
    Except Err Ctr × St :=
  match containerCreateValidate env args0 with
  | .error e => (.error e, st)
  | .ok args =>
    match containerCreateDB env st args with
    | .error .alreadyDefined =>
      let thing := if isSnapshotName args.name then "Snapshot" else "Container"
      (.error (.other (thing ++ " \x27" ++ args.name ++ "\x27 already exists")), st)
    | .error e => (.error e, st)
    | .ok (id, st) =>
      let st := emit st (.removeLog args.name)
      let args := { args with id := id }
      match env.ctGet args.name with
      | .error e => (.error e, containerRemoveDB st args.name)
      | .ok (cd, lu) =>
        let args := { args with creationDate := cd, lastUsedDate := lu }
        match env.lxcCreate args with
        | .error e => (.error e, containerRemoveDB st args.name)
        | .ok ex => (.ok (mkContainer args ex), st)

/-! ## containerConfigureInternal -/

/-- The tail of containerConfigureInternal (lines 1102-1111): at this point
the deferred StorageStop is registered (when this call started the
volume), so it runs when the function returns — after writeBackupFile, on
both the error and the success path. -/
def containerConfigureTail (env : Env) (c : Ctr) (st : St) (ourStart : Bool) :
    Except Err Unit × St :=
  let st := emit st (.writeBackupFile c.name)
  match env.writeBackupFileErr c.name with
  | some e => (.error e, if ourStart then emit st (.storageStop c.name) else st)
  | none => (.ok (), if ourStart then emit st (.storageStop c.name) else st)

/-- containerConfigureInternal (lines 1068-1112). The deferred StorageStop
is registered only after the quota block (line 1102), so the error
returns inside the quota block happen before it is registered and issue
no stop. -/
def containerConfigureInternal (env : Env) (c : Ctr) (st : St) :
    Except Err Unit × St :=
  match getRootDiskDevice c.expandedDevices with
  | .error e => (.error e, st)
  | .ok (_, rootDiskDevice) =>
    let st := emit st (.storageStart c.name)
    match env.storageStart c.name with
    | .error e => (.error e, st)
    | .ok ourStart =>
      if mGet rootDiskDevice "size" != "" then
        if env.storageTypeName == "lvm" && c.isRunning then
          let st := emit st (.configKeySet "volatile.apply_quota" (mGet rootDiskDevice "size"))
          match env.configKeySetErr "volatile.apply_quota" (mGet rootDiskDevice "size") with
          | some e => (.error e, st)
          | none => containerConfigureTail env c st ourStart
        else
          match env.parseByteSize (mGet rootDiskDevice "size") with
          | .error e => (.error e, st)
          | .ok size =>
            let st := emit st (.setQuota size)
            match env.setQuotaErr with
            | some e => (.error e, st)
            | none => containerConfigureTail env c st ourStart
      else containerConfigureTail env c st ourStart

/-! ## containerCreateAsCopy -/

/-- The parent storage pool resolution of containerCreateAsCopy (lines
784-789): the pool of the resolved root disk device of the new container,
or "" when none resolves. -/
def parentPoolOf (ct : Ctr) : String :=
  match getRootDiskDevice ct.expandedDevices with
  | .ok (_, d) => mGet d "pool"
  | .error _ => ""

/-- Go map assignment on a device map: replace the binding if the device
name is present, else add it. -/
def devSet (devs : DevMap) (k : String) (v : SMap) : DevMap :=
  if (devs.find? (fun p => p.1 == k)).isSome then
    devs.map (fun p => if p.1 == k then (p.1, v) else p)
  else devs ++ [(k, v)]

/-- The snapshot local-device rewrite of containerCreateAsCopy (lines
806-818): point the local root disk device at the parent pool, or assign
a synthetic root device under the name "root" when none resolves
locally. -/
def rewriteSnapRoot (parentPool : String) (devs : DevMap) : DevMap :=
  match getRootDiskDevice devs with
  | .ok (k, _) => devs.map (fun p => if p.1 == k then (p.1, mSet p.2 "pool" parentPool) else p)
  | .error _ => devSet devs "root" [("type", "disk"), ("path", "/"), ("pool", parentPool)]

/-- Everything after the first delimiter character. -/
def dropThroughSlash : List Char → List Char
  | [] => []
  | c :: rest => if c == '/' then rest else dropThroughSlash rest

/-- Everything after the first "/" of a snapshot name (lines 820-821,
strings.SplitN with limit 2, second field; Go would panic on a name
without the delimiter, snapshots always carry it — here such a name
yields "". -/
def snapSuffix (s : String) : String :=
  ⟨dropThroughSlash s.data⟩

/-- The snapshot-record reservation loop of containerCreateAsCopy (lines
799-841): one renamed sibling record per source snapshot; a failure
aborts with no rollback of the earlier siblings. -/
def copySnapLoop (env : Env) (parentPool pname : String) (st : St) :
    List Ctr → Except Err (List Ctr) × St
  | [] => (.ok [], st)
  | snap :: rest =>
    let snapDevices := match snap.localDevices with
      | some d => some (rewriteSnapRoot parentPool d)
      | none => none
    let csArgs : ContainerArgs :=
      { id := 0
        name := pname ++ "/" ++ snapSuffix snap.name
        architecture := snap.architecture
        baseImage := ""
        config := snap.localConfig
        ctype := .snapshot
        devices := snapDevices
        description := snap.description
        ephemeral := snap.ephemeral
        profiles := some snap.profiles
        stateful := false
        creationDate := 0
        lastUsedDate := 0 }
    match containerCreateInternal env st csArgs with
    | (.error e, st) => (.error e, st)
    | (.ok cs, st) =>
      match copySnapLoop env parentPool pname st rest with
      | (.error e, st) => (.error e, st)
      | (.ok csl, st) => (.ok (cs :: csl), st)

/-- The per-snapshot post-storage configuration loop of
containerCreateAsCopy (lines 860-869): a failure deletes just that
snapshot entity. -/
def copyConfigureSnaps (env : Env) (st : St) : List Ctr → Except Err Unit × St
  | [] => (.ok (), st)
  | cs :: rest =>
    match containerConfigureInternal env cs st with
    | (.error e, st) => (.error e, containerDelete st cs.name)
    | (.ok _, st) => copyConfigureSnaps env st rest

/-- containerCreateAsCopy from the storage clone onwards (lines 843-871):
on copy failure every reserved snapshot record is removed and then the
target record; on success the target and then each snapshot is
configured. -/
def containerCreateAsCopyAfter (env : Env) (st : St) (args : ContainerArgs) (ct : Ctr)
    (cs : List Ctr) (containerOnly : Bool) : Except Err Ctr × St :=
  let st := emit st .containerCopy
  match env.containerCopyErr with
  | some e =>
    let st := cs.foldl (fun a c => containerRemoveDB a c.name) st
    (.error e, containerRemoveDB st args.name)
  | none =>
    match containerConfigureInternal env ct st with
    | (.error e, st) => (.error e, containerDelete st ct.name)
    | (.ok _, st) =>
      if containerOnly then (.ok ct, st)
      else
        match copyConfigureSnaps env st cs with
        | (.error e, st) => (.error e, st)
        | (.ok _, st) => (.ok ct, st)

/-- containerCreateAsCopy (lines 774-872). -/
def containerCreateAsCopy (env : Env) (st : St) (args : ContainerArgs)
    (containerOnly : Bool) : Except Err Ctr × St :=
  match containerCreateInternal env st args with
  | (.error e, st) => (.error e, st)
  | (.ok ct, st) =>
    if containerOnly then containerCreateAsCopyAfter env st args ct [] true
    else
      match env.sourceSnapshots with
      | .error e => (.error e, containerRemoveDB st args.name)
      | .ok snaps =>
        match copySnapLoop env (parentPoolOf ct) ct.name st snaps with
        | (.error e, st) => (.error e, st)
        | (.ok cs, st) => containerCreateAsCopyAfter env st args ct cs false

/-! ## containerCreateAsSnapshot -/

/-- containerCreateAsSnapshot after the stateful dump (lines 919-957):
reserve the record, clone the storage, start storage (stopping it again
when this call started it), write the backup file, drop the state
directory and emit the lifecycle event. -/
def containerCreateAsSnapshotTail (env : Env) (st : St) (args : ContainerArgs)
    (source : Ctr) : Except Err Ctr × St :=
  match containerCreateInternal env st args with
  | (.error e, st) => (.error e, st)
  | (.ok c, st) =>
    let st := emit st (.snapshotCreate args.name)
    match env.snapshotCreateErr with
    | some e => (.error e, containerRemoveDB st args.name)
    | none =>
      let st := emit st (.storageStart c.name)
      match env.storageStart c.name with
      | .error e => (.error e, st)
      | .ok ourStart =>
        let st := emit st (.writeBackupFile source.name)
        match env.writeBackupFileErr source.name with
        | some e =>
          let st := containerDelete st c.name
          (.error e, if ourStart then emit st (.storageStop c.name) else st)
        | none =>
          let st := if args.stateful then emit st (.removeStateDir source.statePath) else st
          let st := emit st (.lifecycleEvent source.name args.name)
          (.ok c, if ourStart then emit st (.storageStop c.name) else st)

/-- containerCreateAsSnapshot (lines 874-958). A stateful snapshot first
requires a running source and an installed checkpoint tool, then dumps
the live state into the state directory before touching the catalog. -/
def containerCreateAsSnapshot (env : Env) (st : St) (args : ContainerArgs)
    (source : Ctr) : Except Err Ctr × St :=
  if args.stateful then
    if !source.isRunning then
      (.error (.other "Unable to create a stateful snapshot. The container isn\x27t running."), st)
    else if !env.criuInstalled then
      (.error (.other "Unable to create a stateful snapshot. CRIU isn\x27t installed."), st)
    else
      let st := emit st (.mkdirStateDir source.statePath)
      match env.mkdirStateErr with
      | some e => (.error e, st)
      | none =>
        let st := emit st (.migrateDump source.statePath)
        match env.migrateErr with
        | some e => (.error e, emit st (.removeStateDir source.statePath))
        | none => containerCreateAsSnapshotTail env st args source
  else containerCreateAsSnapshotTail env st args source

/-! ## containerCreateFromBackup -/

/-- The unpack-and-rewrite tail of containerCreateFromBackup (lines
668-683): invoke the storage-driver unpack against the chosen pool, then
rewrite the persisted pool reference when a substitution occurred. -/
def containerCreateFromBackupUnpack (env : Env) (st : St) (pool : String)
    (fixBackupFile : Bool) : Option Err × St :=
  let st := emit st (.backupLoad pool)
  match env.backupLoadErr pool with
  | some e => (some e, st)
  | none =>
    if fixBackupFile then
      let st := emit st .fixBackupPool
      match env.fixBackupPoolErr with
      | some e => (some e, st)
      | none => (none, st)
    else (none, st)

/-- containerCreateFromBackup (lines 630-684). A missing pool fails
immediately for a binary-format archive, and falls back to the default
profile root-disk pool otherwise. -/
def containerCreateFromBackup (env : Env) (st : St) (info : BackupInfo) :
    Option Err × St :=
  match env.poolInit info.pool with
  | .ok pool => containerCreateFromBackupUnpack env st pool false
  | .error storageErr =>
    if storageErr != Err.noSuchObject then (some storageErr, st)
    else if info.hasBinaryFormat then (some storageErr, st)
    else
      match env.defaultProfileDevices with
      | .error e => (some e, st)
      | .ok profDevices =>
        match getRootDiskDevice profDevices with
        | .error e => (some e, st)
        | .ok (_, v) =>
          match env.poolInit (mGet v "pool") with
          | .error e => (some e, st)
          | .ok pool => containerCreateFromBackupUnpack env st pool true

/-! ## containerBackupCreate -/

/-- containerLoadByName (lines 1124-1132). -/
def containerLoadByName (env : Env) (name : String) : Except Err Ctr :=
  match env.ctArgsGet name with
  | .error e => .error e
  | .ok args =>
    match env.lxcLoad args with
    | .error e => .error e
    | .ok ex => .ok (mkContainer args ex)

/-- containerLoadById (lines 1114-1122). -/
def containerLoadById (env : Env) (id : Int) : Except Err Ctr :=
  match env.containerNameById id with
  | .error e => .error e
  | .ok name => containerLoadByName env name

/-- containerBackupLoadByName (lines 1134-1156). -/
def containerBackupLoadByName (env : Env) (name : String) : Except Err Backup :=
  match env.backupGet name with
  | .error e => .error e
  | .ok row =>
    match containerLoadById env row.containerID with
    | .error e => .error e
    | .ok c =>
      .ok { container := c
            id := row.id
            name := name
            creationDate := row.creationDate
            expiryDate := row.expiryDate
            containerOnly := row.containerOnly
            optimizedStorage := row.optimizedStorage }

/-- containerBackupCreate (lines 1158-1188): reserve the backup record,
load it back, run storage-driver backup-create, write the index file. A
storage or index failure deletes the record; a load failure returns with
the record still reserved. -/
def containerBackupCreate (env : Env) (st : St) (args : BackupArgs)
    (source : Ctr) : Option Err × St :=
  match backupCreateDB env st args.name with
  | .error .alreadyDefined =>
    (some (.other ("backup \x27" ++ args.name ++ "\x27 already exists")), st)
  | .error e => (some e, st)
  | .ok st =>
    match containerBackupLoadByName env args.name with
    | .error e => (some e, st)
    | .ok _ =>
      let st := emit st (.storageBackupCreate source.name)
      match env.storageBackupCreateErr with
      | some e => (some e, backupRemoveDB st args.name)
      | none =>
        let st := emit st (.writeBackupIndex args.name)
        match env.createBackupIndexErr with
        | some e => (some e, backupRemoveDB st args.name)
        | none => (none, st)

/-! ## Concrete environments for witnesses and counterexamples

These instantiate the collaborator oracles at benign values; individual
witnesses override single fields to trigger the failure they need. -/

/-- A value checker for the config keys used in the examples: the syscall
filter keys take booleans, the raw keys take free-form text, everything
else is unknown (mirroring the behaviour of the external
shared.ConfigKeyChecker on these keys). -/
def exConfigKeyChecker (k : String) : Except Err (String → Option Err) :=
  if ["security.syscalls.whitelist", "security.syscalls.blacklist",
      "raw.seccomp", "raw.lxc", "raw.idmap"].contains k then
    .ok (fun _ => none)
  else if ["security.syscalls.blacklist_default", "security.syscalls.blacklist_compat",
           "security.privileged"].contains k then
    .ok (fun v => if ["true", "false", "1", "0", "yes", "no", "on", "off", ""].contains (lowerString v)
                  then none else some (.other ("Invalid value for a boolean: " ++ v)))
  else .error (.other ("Unknown configuration key: " ++ k))

def exCfgEnv : ConfigEnv :=
  { configKeyChecker := exConfigKeyChecker
    lxcValidConfigErr := fun _ => none
    architectures := [ARCH_64BIT_INTEL_X86]
    idmapSetPresent := true
    lxdUnprivilegedOnly := ""
    parseRawIdmapHostIds := fun _ => .ok [] }

def exDevEnv : DeviceEnv :=
  { isDir := fun _ => false
    pathExists := fun _ => true
    deviceGetAttributes := fun _ => .ok "c"
    liblxcAtLeast3 := true
    storagePoolGetID := fun _ => .ok 1
    isAbs := fun s => match s.data with
      | [] => false
      | c :: _ => c == '/' }

def exEnv : Env :=
  { cfgEnv := exCfgEnv
    devEnv := exDevEnv
    validHostname := fun _ => true
    archName := fun _ => .ok "x86_64"
    clusterProfiles := .ok ["default"]
    ctCreateExtraErr := fun _ => none
    newId := fun _ => 1
    ctGet := fun _ => .ok (0, 0)
    lxcCreate := fun _ =>
      .ok { isRunning := false
            statePath := "/var/state"
            expandedDevices := [("root", [("type", "disk"), ("path", "/"), ("pool", "pool1")])] }
    sourceSnapshots := .ok []
    containerCopyErr := none
    snapshotCreateErr := none
    storageStart := fun _ => .ok true
    storageTypeName := "dir"
    parseByteSize := fun _ => .ok 0
    setQuotaErr := none
    configKeySetErr := fun _ _ => none
    writeBackupFileErr := fun _ => none
    criuInstalled := true
    mkdirStateErr := none
    migrateErr := none
    poolInit := fun p => .ok p
    defaultProfileDevices := .ok [("root", [("type", "disk"), ("path", "/"), ("pool", "poolD")])]
    backupLoadErr := fun _ => none
    fixBackupPoolErr := none
    backupCreateExtraErr := fun _ => none
    backupGet := fun _ => .ok { id := 1, containerID := 7, creationDate := 0, expiryDate := 0,
                                containerOnly := false, optimizedStorage := false }
    containerNameById := fun _ => .ok "src"
    ctArgsGet := fun n =>
      .ok { id := 7, name := n, architecture := ARCH_64BIT_INTEL_X86, baseImage := "",
            config := some [], ctype := .regular, devices := some [], description := "",
            ephemeral := false, profiles := some ["default"], stateful := false,
            creationDate := 0, lastUsedDate := 0 }
    lxcLoad := fun _ => .ok { isRunning := true, statePath := "/var/state/src",
                              expandedDevices := [("root", [("type", "disk"), ("path", "/"), ("pool", "pool1")])] }
    storageBackupCreateErr := none
    createBackupIndexErr := none }

/-- A source container for the flow examples. -/
def exSource : Ctr :=
  { name := "src"
    architecture := ARCH_64BIT_INTEL_X86
    description := ""
    ephemeral := false
    isRunning := true
    statePath := "/var/state/src"
    localConfig := some []
    localDevices := none
    expandedDevices := [("root", [("type", "disk"), ("path", "/"), ("pool", "pool1")])]
    profiles := ["default"] }

/-- The initial catalog for the flow examples: one existing container and
its snapshot. -/
def exSt : St :=
  { containers := ["src", "src/s1"], backups := [], events := [] }

/-- A create request leaving profiles, config, devices and architecture
unset. -/
def exArgs : ContainerArgs :=
  { id := 0, name := "c2", architecture := 0, baseImage := "", config := none,
    ctype := .regular, devices := none, description := "", ephemeral := false,
    profiles := none, stateful := false, creationDate := 0, lastUsedDate := 0 }

/-! ## Shared helper lemmas -/

theorem removeName_append (a b : List String) (n : String) :
    removeName (a ++ b) n = removeName a n ++ removeName b n := by
  simp [removeName, List.filter_append]

theorem removeName_of_not_mem {l : List String} {n : String} (h : n ∉ l) :
    removeName l n = l := by
  apply List.filter_eq_self.mpr
  intro a ha
  simp only [bne_iff_ne, ne_eq]
  exact fun hr => h (hr ▸ ha)

theorem removeName_cons_self {l : List String} {n : String} (h : n ∉ l) :
    removeName (n :: l) n = l := by
  have h1 : removeName (n :: l) n = removeName l n := by
    simp [removeName, List.filter_cons]
  rw [h1, removeName_of_not_mem h]

/-! ## Claim C5 -/

/-- C5: a call to containerCreateAsSnapshot with args.Stateful=true on a
source container that is not running fails with the precondition error
before any state directory is created and before any catalog record is
reserved — the returned state (catalog and side-effect trace) is exactly
the input state. -/
theorem c5_stateful_snapshot_requires_running (env : Env) (st : St)
    (args : ContainerArgs) (source : Ctr)
    (hs : args.stateful = true) (hr : source.isRunning = false) :
    containerCreateAsSnapshot env st args source =
      (.error (.other "Unable to create a stateful snapshot. The container isn\x27t running."), st) := by
  simp [containerCreateAsSnapshot, hs, hr]

/-- Witness for C5 at a concrete stopped source container. -/
theorem c5_witness :
    ({ exArgs with name := "src/snap0", ctype := CType.snapshot, stateful := true } : ContainerArgs).stateful = true ∧
    ({ exSource with isRunning := false } : Ctr).isRunning = false ∧
    containerCreateAsSnapshot exEnv exSt
        { exArgs with name := "src/snap0", ctype := CType.snapshot, stateful := true }
        { exSource with isRunning := false } =
      (.error (.other "Unable to create a stateful snapshot. The container isn\x27t running."), exSt) :=
  ⟨rfl, rfl,
    c5_stateful_snapshot_requires_running exEnv exSt
      { exArgs with name := "src/snap0", ctype := CType.snapshot, stateful := true }
      { exSource with isRunning := false } rfl rfl⟩

/-! ## Claim C4 -/

/-- A container whose expanded root disk carries an unparseable size quota. -/
def c4Ctr : Ctr :=
  { name := "c4c"
    architecture := ARCH_64BIT_INTEL_X86
    description := ""
    ephemeral := false
    isRunning := false
    statePath := "/var/state/c4c"
    localConfig := some []
    localDevices := some []
    expandedDevices := [("root", [("type", "disk"), ("path", "/"), ("size", "banana")])]
    profiles := ["default"] }

/-- An environment whose StorageStart reports that this call started the
volume, and whose byte-size parser rejects "banana". -/
def c4Env : Env :=
  { exEnv with parseByteSize := fun s =>
      if s == "banana" then .error (.other "Invalid value: banana") else .ok 0 }

/-- C4: the code does not satisfy the claim. containerConfigureInternal
registers its deferred StorageStop only after the quota block, so the
error returns inside that block (ConfigKeySet, ParseByteSizeString,
SetQuota) leave a volume this very call started still started: here
StorageStart returned true, the size fails to parse, the call returns the
parse error, and the trace holds the start but no stop. -/
theorem c4_configure_internal_leaks_started_storage :
    c4Env.storageStart "c4c" = .ok true ∧
    containerConfigureInternal c4Env c4Ctr { containers := ["c4c"], backups := [], events := [] } =
      (.error (.other "Invalid value: banana"),
       { containers := ["c4c"], backups := [], events := [Event.storageStart "c4c"] }) ∧
    Event.storageStop "c4c" ∉
      (containerConfigureInternal c4Env c4Ctr { containers := ["c4c"], backups := [], events := [] }).2.events := by
  refine ⟨rfl, by rfl, by decide⟩

/-! ## Claim C2 -/

/-- An environment where reading the reserved backup record back fails. -/
def c2Env : Env := { exEnv with backupGet := fun _ => .error (.other "boom") }

def c2Args : BackupArgs :=
  { name := "b1", containerID := 7, containerOnly := false, optimizedStorage := false }

/-- C2 counterexample: when loading the reserved record fails
(containerBackupLoadByName at line 1168), containerBackupCreate returns
the error without deleting the backup record — the record "b1" is still
in the catalog, contradicting the claim that every failure after the
reservation deletes it. -/
theorem c2_counterexample :
    containerBackupCreate c2Env exSt c2Args exSource =
      (some (.other "boom"),
       { containers := ["src", "src/s1"], backups := ["b1"], events := [] }) ∧
    "b1" ∈ (containerBackupCreate c2Env exSt c2Args exSource).2.backups := by
  refine ⟨by rfl, by decide⟩

/-- C2 amended: after the reservation succeeds and the record loads back,
a failure of the storage-driver backup-create or of the index-file write
deletes the backup record before the error is returned (the catalog ends
as it began); a failure loading the reserved record, by contrast, leaves
the record behind (see the counterexample). -/
theorem c2_amended (env : Env) (st : St) (args : BackupArgs) (source : Ctr)
    (hfresh : args.name ∉ st.backups)
    (hextra : env.backupCreateExtraErr args.name = none)
    (b : Backup) (hload : containerBackupLoadByName env args.name = .ok b)
    (e : Err)
    (hfail : env.storageBackupCreateErr = some e ∨
             (env.storageBackupCreateErr = none ∧ env.createBackupIndexErr = some e)) :
    (containerBackupCreate env st args source).1 = some e ∧
    (containerBackupCreate env st args source).2.backups = st.backups := by
  have hc : st.backups.contains args.name = false := by
    simpa using hfresh
  unfold containerBackupCreate backupCreateDB
  rw [hc]
  simp only [Bool.false_eq_true, if_false, hextra, hload]
  rcases hfail with hf | ⟨hf1, hf2⟩
  · simp [hf, backupRemoveDB, emit, removeName_cons_self hfresh]
  · simp [hf1, hf2, backupRemoveDB, emit, removeName_cons_self hfresh]

/-- An environment where the storage-driver backup-create fails. -/
def c2wEnv : Env := { exEnv with storageBackupCreateErr := some (.other "sfail") }

/-- Witness for the amended C2 at a concrete failing storage call. -/
theorem c2_amended_witness :
    (containerBackupCreate c2wEnv exSt c2Args exSource).1 = some (.other "sfail") ∧
    (containerBackupCreate c2wEnv exSt c2Args exSource).2.backups = exSt.backups :=
  c2_amended c2wEnv exSt c2Args exSource (by decide) rfl _ rfl (.other "sfail") (Or.inl rfl)

/-! ## Claim C3 -/

/-- C3 counterexample: the claim predicts rejection for every config map
holding raw.seccomp together with a security.syscalls.* key regardless of
values, but containerValidConfig tests blacklist_default and
blacklist_compat by their truth value (shared.IsTrue), not by presence:
raw.seccomp together with security.syscalls.blacklist_default="false" is
accepted. -/
theorem c3_counterexample :
    containerValidConfig exCfgEnv
      (some [("raw.seccomp", "unconfined"), ("security.syscalls.blacklist_default", "false")])
      false false = .ok () := by
  rfl

/-- C3 amended: containerValidConfig rejects every map holding raw.seccomp
together with security.syscalls.whitelist or security.syscalls.blacklist
present (any value), or with security.syscalls.blacklist_default or
security.syscalls.blacklist_compat carrying a truthy value; for the two
blacklist-flag keys a non-true value does not trigger the rejection. -/
theorem c3_amended (env : ConfigEnv) (cfg : SMap) (profile expanded : Bool)
    (hseccomp : mHas cfg "raw.seccomp" = true)
    (hsys : mHas cfg "security.syscalls.whitelist" = true ∨
            mHas cfg "security.syscalls.blacklist" = true ∨
            isTrue (mGet cfg "security.syscalls.blacklist_default") = true ∨
            isTrue (mGet cfg "security.syscalls.blacklist_compat") = true) :
    ∃ e, containerValidConfig env (some cfg) profile expanded = .error e := by
  unfold containerValidConfig
  cases h : containerValidConfigLoop env profile cfg with
  | error e => exact ⟨e, by simp [h]⟩
  | ok _ =>
    refine ⟨Err.other "raw.seccomp is mutually exclusive with security.syscalls*", ?_⟩
    rcases hsys with h1 | h1 | h1 | h1 <;> simp [h, hseccomp, h1]

/-- Witness for the amended C3: raw.seccomp next to a present
security.syscalls.whitelist key is rejected. -/
theorem c3_amended_witness :
    mHas [("raw.seccomp", "x"), ("security.syscalls.whitelist", "mkdir")] "raw.seccomp" = true ∧
    mHas [("raw.seccomp", "x"), ("security.syscalls.whitelist", "mkdir")] "security.syscalls.whitelist" = true ∧
    ∃ e, containerValidConfig exCfgEnv
      (some [("raw.seccomp", "x"), ("security.syscalls.whitelist", "mkdir")]) false false = .error e :=
  ⟨rfl, rfl,
    c3_amended exCfgEnv [("raw.seccomp", "x"), ("security.syscalls.whitelist", "mkdir")]
      false false rfl (Or.inl rfl)⟩

/-! ## Claim C8 -/

/-- C8: in containerCreateFromBackup, if the recorded pool is missing and
the backup is in binary format, the call fails with the pool-not-found
error and the state is untouched — in particular the storage-driver
unpack is never invoked; if the backup is not in binary format, the
default profile root-disk pool is used for the unpack, and after a
successful unpack the persisted pool reference is rewritten (the fix
step runs, and the call returns its outcome). -/
theorem c8_from_backup_pool_fallback (env : Env) (st : St) (info : BackupInfo) :
    (env.poolInit info.pool = .error .noSuchObject → info.hasBinaryFormat = true →
      containerCreateFromBackup env st info = (some Err.noSuchObject, st)) ∧
    (∀ (pd : DevMap) (k : String) (v : SMap) (p : String),
      env.poolInit info.pool = .error .noSuchObject → info.hasBinaryFormat = false →
      env.defaultProfileDevices = .ok pd → getRootDiskDevice pd = .ok (k, v) →
      env.poolInit (mGet v "pool") = .ok p → env.backupLoadErr p = none →
      containerCreateFromBackup env st info =
        (env.fixBackupPoolErr, emit (emit st (.backupLoad p)) .fixBackupPool)) := by
  constructor
  · intro h1 h2
    simp [containerCreateFromBackup, h1, h2]
  · intro pd k v p h1 h2 h3 h4 h5 h6
    unfold containerCreateFromBackup containerCreateFromBackupUnpack
    rw [h1]
    simp only [h2, h3, h4, h5, h6, bne_self_eq_false, Bool.false_eq_true, if_false]
    cases hf : env.fixBackupPoolErr <;> simp [hf]

/-- A state where every pool is missing. -/
def c8aEnv : Env := { exEnv with poolInit := fun _ => .error .noSuchObject }

/-- A state where only the recorded pool "gone" is missing. -/
def c8bEnv : Env :=
  { exEnv with poolInit := fun q => if q == "gone" then .error .noSuchObject else .ok q }

/-- Witness for C8: both branches at concrete backups whose recorded pool
is missing. -/
theorem c8_witness :
    containerCreateFromBackup c8aEnv exSt
      { name := "b", pool := "gone", hasBinaryFormat := true } = (some Err.noSuchObject, exSt) ∧
    containerCreateFromBackup c8bEnv exSt
      { name := "b", pool := "gone", hasBinaryFormat := false } =
      (none, emit (emit exSt (.backupLoad "poolD")) .fixBackupPool) :=
  ⟨(c8_from_backup_pool_fallback c8aEnv exSt
      { name := "b", pool := "gone", hasBinaryFormat := true }).1 rfl rfl,
   (c8_from_backup_pool_fallback c8bEnv exSt
      { name := "b", pool := "gone", hasBinaryFormat := false }).2
      _ "root" _ "poolD" rfl rfl rfl rfl rfl rfl⟩

/-! ## Claim C9 -/

/-- C9: containerCreateInternal applies defaults before validation — nil
profiles become ["default"], a nil config becomes an empty map, a nil
device map becomes an empty map, architecture 0 becomes the first host
architecture — and a request with all of these unset passes the whole
defaulting-and-validation prefix (it is not rejected for missing them). -/
theorem c9_create_internal_defaults (env : Env) (args : ContainerArgs)
    (a : Int) (rest : List Int) (s : String) (ps : List String)
    (hp : args.profiles = none) (hc : args.config = none) (hd : args.devices = none)
    (ha : args.architecture = 0) (hb : args.baseImage = "")
    (harch : env.cfgEnv.architectures = a :: rest)
    (hname : containsSlash args.name = false)
    (hhost : env.validHostname args.name = true)
    (han : env.archName a = .ok s)
    (hprof : env.clusterProfiles = .ok ps)
    (hdef : ps.contains "default" = true) :
    containerCreateSetDefaults env args =
      { args with profiles := some ["default"], config := some [],
                  devices := some [], architecture := a } ∧
    containerCreateValidate env args =
      .ok { args with profiles := some ["default"], config := some [],
                      devices := some [], architecture := a } := by
  have hdefaults : containerCreateSetDefaults env args =
      { args with profiles := some ["default"], config := some [],
                  devices := some [], architecture := a } := by
    simp [containerCreateSetDefaults, hp, hc, hd, ha, hb, harch]
  refine ⟨hdefaults, ?_⟩
  unfold containerCreateValidate
  rw [hdefaults]
  have hnm : containerValidName env args.name = .ok () := by
    simp [containerValidName, hname, hhost]
  have hcfg : containerValidConfig env.cfgEnv (some []) false false = .ok () := by
    unfold containerValidConfig containerValidConfigLoop
    cases hu : isTrue env.cfgEnv.lxdUnprivilegedOnly <;>
      simp [mHas, mGet, isTrue, lowerString, hu]
  have hdev : containerValidDevices env.devEnv (some []) false false = .ok () := by
    simp [containerValidDevices, containerValidDevicesLoop]
  have hcontains : (a :: rest).contains a = true := by simp
  have hdef2 : "default" ∈ ps := by simpa using hdef
  cases hct : args.ctype <;>
    simp [hct, hnm, hcfg, hdev, han, harch, hcontains, hprof,
          profilesCheckLoop, hdef2]

/-- Witness for C9: the all-unset request against the example host. -/
theorem c9_witness :
    containerCreateSetDefaults exEnv exArgs =
      { exArgs with profiles := some ["default"], config := some [],
                    devices := some [], architecture := ARCH_64BIT_INTEL_X86 } ∧
    containerCreateValidate exEnv exArgs =
      .ok { exArgs with profiles := some ["default"], config := some [],
                        devices := some [], architecture := ARCH_64BIT_INTEL_X86 } :=
  c9_create_internal_defaults exEnv exArgs ARCH_64BIT_INTEL_X86 [] "x86_64" ["default"]
    rfl rfl rfl rfl rfl rfl (by decide) rfl rfl rfl (by decide)

/-! ## Device-validation lemmas -/

theorem deviceKeyLoop_ok (t : String) (m : SMap)
    (h : ∀ p ∈ m, containerValidDeviceConfigKey t p.1 = true) :
    deviceKeyLoop t m = .ok () := by
  induction m with
  | nil => rfl
  | cons p rest ih =>
    obtain ⟨k, v⟩ := p
    have hk := h (k, v) (by simp)
    simp only [deviceKeyLoop, hk, if_true]
    exact ih (fun q hq => h q (by simp [hq]))

/-! ## Claim C7 -/

/-- C7 counterexample: a disk device with an empty path (which is "a path
other than /") and an empty source is rejected with the missing-path
error, not the missing-source error the claim names. -/
theorem c7_counterexample :
    containerValidDevices exDevEnv (some [("d", [("type", "disk")])]) false false =
      .error (.other "Disk entry is missing the required \"path\" property.") ∧
    containerValidDevices exDevEnv (some [("d", [("type", "disk")])]) false false ≠
      .error (.other "Disk entry is missing the required \"source\" property.") := by
  refine ⟨by rfl, by decide⟩

/-- C7 amended: for a disk device whose keys are all valid disk keys, in a
fresh (non-expanded) device map: with path "/" a non-empty source is
rejected with the root-source error; with path "/" and no source both
source checks pass; with a non-empty path other than "/" an empty source
is rejected with the missing-source error. (The claim as stated also
covers the empty path, where the missing-path error fires instead — see
the counterexample.) -/
theorem c7_amended (env : DeviceEnv) (name : String) (m : SMap)
    (htype : mGet m "type" = "disk")
    (hkeys : ∀ p ∈ m, containerValidDeviceConfigKey "disk" p.1 = true) :
    (mGet m "path" = "/" → mGet m "source" ≠ "" →
      containerValidDevices env (some [(name, m)]) false false =
        .error (.other "Root disk entry may not have a \"source\" property set.")) ∧
    (mGet m "path" = "/" → mGet m "source" = "" →
      diskMissingSourceCheck m = .ok () ∧ diskRootSourceCheck m = .ok ()) ∧
    (mGet m "path" ≠ "/" → mGet m "path" ≠ "" → mGet m "source" = "" →
      containerValidDevices env (some [(name, m)]) false false =
        .error (.other "Disk entry is missing the required \"source\" property.")) := by
  have hkl : deviceKeyLoop "disk" m = .ok () :=
    deviceKeyLoop_ok _ _ hkeys
  refine ⟨?_, ?_, ?_⟩
  · intro h1 h2
    simp [containerValidDevices, containerValidDevicesLoop, containerValidDevicesOne,
          htype, hkl, deviceTypes, deviceDiskChecks, diskDupCheck, diskUnitChecks,
          diskPathCheck, diskMissingSourceCheck, diskRootSourceCheck, h1, h2]
  · intro h1 h2
    constructor
    · simp [diskMissingSourceCheck, h1, h2]
    · simp [diskRootSourceCheck, h1, h2]
  · intro h1 h2 h3
    simp [containerValidDevices, containerValidDevicesLoop, containerValidDevicesOne,
          htype, hkl, deviceTypes, deviceDiskChecks, diskDupCheck, diskUnitChecks,
          diskPathCheck, diskMissingSourceCheck, h1, h2, h3]

/-- Witness for the amended C7 at the three concrete devices of the spec
scenario: root disk with a source, root disk without one, data disk
without a source. -/
theorem c7_witness :
    (containerValidDevices exDevEnv
      (some [("root", [("type", "disk"), ("path", "/"), ("source", "/mnt/x")])]) false false =
      .error (.other "Root disk entry may not have a \"source\" property set.")) ∧
    (diskMissingSourceCheck [("type", "disk"), ("path", "/")] = .ok () ∧
     diskRootSourceCheck [("type", "disk"), ("path", "/")] = .ok ()) ∧
    (containerValidDevices exDevEnv
      (some [("data", [("type", "disk"), ("path", "/data")])]) false false =
      .error (.other "Disk entry is missing the required \"source\" property.")) :=
  ⟨(c7_amended exDevEnv "root" [("type", "disk"), ("path", "/"), ("source", "/mnt/x")]
      rfl (by decide)).1 rfl (by decide),
   (c7_amended exDevEnv "r2" [("type", "disk"), ("path", "/")]
      rfl (by decide)).2.1 rfl rfl,
   (c7_amended exDevEnv "data" [("type", "disk"), ("path", "/data")]
      rfl (by decide)).2.2 (by decide) (by decide) rfl⟩

/-! ## Claim C6 -/

theorem deviceKeyLoop_error (t : String) (m : SMap) (k v : String)
    (hmem : (k, v) ∈ m) (hbad : containerValidDeviceConfigKey t k = false) :
    ∃ k2, deviceKeyLoop t m =
      .error (.other ("Invalid device configuration key for " ++ t ++ ": " ++ k2)) := by
  induction m with
  | nil => cases hmem
  | cons p rest ih =>
    obtain ⟨k1, v1⟩ := p
    by_cases hk : containerValidDeviceConfigKey t k1 = true
    · have hrest : (k, v) ∈ rest := by
        rcases List.mem_cons.mp hmem with heq | h
        · obtain ⟨e1, e2⟩ := Prod.mk.injEq .. ▸ heq
          exact absurd (e1 ▸ hk) (by simp [hbad])
        · exact h
      obtain ⟨k2, h2⟩ := ih hrest
      exact ⟨k2, by simp [deviceKeyLoop, hk, h2]⟩
    · have hk2 : containerValidDeviceConfigKey t k1 = false := by simpa using hk
      exact ⟨k1, by simp [deviceKeyLoop, hk2]⟩

theorem containerValidDevicesOne_badkey (env : DeviceEnv) (expanded : Bool)
    (paths : List String) (name : String) (m : SMap) (k v : String)
    (htype : deviceTypes.contains (mGet m "type") = true)
    (hmem : (k, v) ∈ m)
    (hbad : containerValidDeviceConfigKey (mGet m "type") k = false) :
    ∃ k2, containerValidDevicesOne env expanded paths name m =
      .error (.other ("Invalid device configuration key for " ++ mGet m "type" ++ ": " ++ k2)) := by
  have htmem : mGet m "type" ∈ deviceTypes := by simpa using htype
  have htne : (mGet m "type" == "") = false := by
    simp only [deviceTypes, List.mem_cons, List.not_mem_nil, or_false] at htmem
    rcases htmem with h | h | h | h | h | h | h | h | h <;> simp [h]
  obtain ⟨k2, hkl⟩ := deviceKeyLoop_error (mGet m "type") m k v hmem hbad
  refine ⟨k2, ?_⟩
  unfold containerValidDevicesOne
  simp [htne, htype, hkl, htmem]

theorem containerValidDevicesLoop_badkey (env : DeviceEnv) (expanded : Bool)
    (devs : DevMap) (name : String) (m : SMap) (k v : String)
    (hmem : (name, m) ∈ devs)
    (htype : deviceTypes.contains (mGet m "type") = true)
    (hkmem : (k, v) ∈ m)
    (hbad : containerValidDeviceConfigKey (mGet m "type") k = false) :
    ∀ paths0, ∃ e, containerValidDevicesLoop env expanded paths0 devs = .error e := by
  induction devs with
  | nil => cases hmem
  | cons d rest ih =>
    intro paths0
    obtain ⟨n1, m1⟩ := d
    rcases List.mem_cons.mp hmem with heq | hmem2
    · obtain ⟨e1, e2⟩ := Prod.mk.injEq .. ▸ heq
      subst e1; subst e2
      obtain ⟨k2, h2⟩ := containerValidDevicesOne_badkey env expanded paths0 name m k v htype hkmem hbad
      exact ⟨Err.other ("Invalid device configuration key for " ++ mGet m "type" ++ ": " ++ k2),
        by simp [containerValidDevicesLoop, h2]⟩
    · cases hone : containerValidDevicesOne env expanded paths0 n1 m1 with
      | error e => exact ⟨e, by simp [containerValidDevicesLoop, hone]⟩
      | ok p1 =>
        obtain ⟨e, he⟩ := ih hmem2 p1
        exact ⟨e, by simp [containerValidDevicesLoop, hone, he]⟩

theorem containerValidDevicesLoop_append (env : DeviceEnv) (expanded : Bool)
    (A B : DevMap) : ∀ paths,
    containerValidDevicesLoop env expanded paths (A ++ B) =
      (match containerValidDevicesLoop env expanded paths A with
       | .error e => .error e
       | .ok p2 => containerValidDevicesLoop env expanded p2 B) := by
  induction A with
  | nil => intro paths; simp [containerValidDevicesLoop]
  | cons d rest ih =>
    intro paths
    obtain ⟨n, m⟩ := d
    simp only [List.cons_append, containerValidDevicesLoop]
    cases containerValidDevicesOne env expanded paths n m <;> simp [ih]

/-- C6 counterexample: the map holds a gpu device carrying the unknown key
"frequency" (type in the enumeration, key outside its table), yet the
whole-map validation reports the missing-source error of the other, disk
device — not the invalid-device-configuration-key error the claim
promises for every such map. -/
theorem c6_counterexample :
    containerValidDevices exDevEnv
      (some [("a", [("type", "disk"), ("path", "/data")]),
             ("b", [("type", "gpu"), ("frequency", "1")])]) false false =
      .error (.other "Disk entry is missing the required \"source\" property.") ∧
    containerValidDevices exDevEnv
      (some [("a", [("type", "disk"), ("path", "/data")]),
             ("b", [("type", "gpu"), ("frequency", "1")])]) false false ≠
      .error (.other "Invalid device configuration key for gpu: frequency") := by
  refine ⟨by rfl, by decide⟩

/-- C6 amended: a device map holding a device whose type is in the fixed
enumeration and which carries a key (other than type) outside that
type's allowed table is always rejected; the reported error is the
invalid-device-configuration-key error whenever every device iterated
before the offending one passes its checks (in particular when the
offending device is the only invalid one) — with several invalid
devices, which error is reported depends on map iteration order. -/
theorem c6_amended (env : DeviceEnv) (devs : DevMap) (profile expanded : Bool)
    (name : String) (m : SMap) (k v : String)
    (hmem : (name, m) ∈ devs)
    (htype : deviceTypes.contains (mGet m "type") = true)
    (hkmem : (k, v) ∈ m)
    (hbad : containerValidDeviceConfigKey (mGet m "type") k = false) :
    (∃ e, containerValidDevices env (some devs) profile expanded = .error e) ∧
    (∀ pre post paths, devs = pre ++ (name, m) :: post →
      containerValidDevicesLoop env expanded [] pre = .ok paths →
      ∃ k2, containerValidDevices env (some devs) profile expanded =
        .error (.other ("Invalid device configuration key for " ++ mGet m "type" ++ ": " ++ k2))) := by
  constructor
  · obtain ⟨e, he⟩ := containerValidDevicesLoop_badkey env expanded devs name m k v
      hmem htype hkmem hbad []
    exact ⟨e, by simp [containerValidDevices, he]⟩
  · intro pre post paths hsplit hpre
    obtain ⟨k2, h2⟩ := containerValidDevicesOne_badkey env expanded paths name m k v htype hkmem hbad
    refine ⟨k2, ?_⟩
    have hloop : containerValidDevicesLoop env expanded [] devs =
        .error (.other ("Invalid device configuration key for " ++ mGet m "type" ++ ": " ++ k2)) := by
      rw [hsplit, containerValidDevicesLoop_append, hpre]
      simp [containerValidDevicesLoop, h2]
    simp [containerValidDevices, hloop]

/-- Witness for the amended C6: a lone gpu device with the unknown key
"frequency" is rejected with the invalid-key error. -/
theorem c6_witness :
    (∃ e, containerValidDevices exDevEnv
      (some [("b", [("type", "gpu"), ("frequency", "1")])]) false false = .error e) ∧
    (∃ k2, containerValidDevices exDevEnv
      (some [("b", [("type", "gpu"), ("frequency", "1")])]) false false =
      .error (.other ("Invalid device configuration key for " ++
        mGet [("type", "gpu"), ("frequency", "1")] "type" ++ ": " ++ k2))) :=
  have h := c6_amended exDevEnv [("b", [("type", "gpu"), ("frequency", "1")])] false false
    "b" [("type", "gpu"), ("frequency", "1")] "frequency" "1"
    (by decide) (by decide) (by decide) (by decide)
  ⟨h.1, h.2 [] [] [] rfl rfl⟩

/-! ## Claim C10 -/

theorem deviceDiskChecks_ok_paths (env : DeviceEnv) (expanded : Bool) (paths : List String)
    (m : SMap) (paths' : List String)
    (h : deviceDiskChecks env expanded paths m = .ok paths') :
    (paths' = paths ∨ paths' = paths ++ [mGet m "path"]) ∧
    (expanded = false → mGet m "path" ∈ paths') := by
  unfold deviceDiskChecks at h
  cases hd : diskDupCheck expanded paths m with
  | error e => rw [hd] at h; exact absurd h (by simp)
  | ok p2 =>
    rw [hd] at h
    cases hu : diskUnitChecks env m with
    | error e => rw [hu] at h; exact absurd h (by simp)
    | ok u =>
      rw [hu] at h
      have hp : p2 = paths' := by injection h
      subst hp
      unfold diskDupCheck at hd
      split at hd
      · have h3 : paths ++ [mGet m "path"] = p2 := by injection hd
        exact ⟨Or.inr h3.symm, fun _ => h3 ▸ (List.mem_append_right _ (by simp))⟩
      · split at hd
        · exact absurd hd (by simp)
        · have h3 : paths = p2 := by injection hd
          refine ⟨Or.inl h3.symm, fun hexp => ?_⟩
          subst hexp
          simp_all

theorem containerValidDevicesOne_ok_shape (env : DeviceEnv) (expanded : Bool)
    (paths : List String) (name : String) (m : SMap) (paths' : List String)
    (h : containerValidDevicesOne env expanded paths name m = .ok paths') :
    paths' = paths ∨ paths' = paths ++ [mGet m "path"] := by
  unfold containerValidDevicesOne at h
  repeat' split at h
  all_goals try exact Except.noConfusion h
  all_goals try (injection h with h1; exact Or.inl h1.symm)
  exact (deviceDiskChecks_ok_paths env expanded paths m paths' h).1

theorem containerValidDevicesOne_ok_disk (env : DeviceEnv) (paths : List String)
    (name : String) (m : SMap) (paths' : List String)
    (ht : mGet m "type" = "disk")
    (h : containerValidDevicesOne env false paths name m = .ok paths') :
    mGet m "path" ∈ paths' := by
  unfold containerValidDevicesOne at h
  rw [ht] at h
  simp only [deviceTypes] at h
  simp at h
  cases hkl : deviceKeyLoop "disk" m with
  | error e => rw [hkl] at h; exact absurd h (by simp)
  | ok u =>
    rw [hkl] at h
    simp at h
    exact (deviceDiskChecks_ok_paths env false paths m paths' h).2 rfl

theorem containerValidDevicesLoop_mono (env : DeviceEnv) (expanded : Bool) (devs : DevMap) :
    ∀ paths0 paths', containerValidDevicesLoop env expanded paths0 devs = .ok paths' →
      ∀ q ∈ paths0, q ∈ paths' := by
  induction devs with
  | nil =>
    intro paths0 paths' h q hq
    unfold containerValidDevicesLoop at h
    have h1 : paths0 = paths' := by injection h
    exact h1 ▸ hq
  | cons d rest ih =>
    intro paths0 paths' h q hq
    obtain ⟨n, m⟩ := d
    unfold containerValidDevicesLoop at h
    cases hone : containerValidDevicesOne env expanded paths0 n m with
    | error e => rw [hone] at h; exact absurd h (by simp)
    | ok p1 =>
      rw [hone] at h
      have hq1 : q ∈ p1 := by
        rcases containerValidDevicesOne_ok_shape env expanded paths0 n m p1 hone with h2 | h2
        · exact h2 ▸ hq
        · rw [h2]; exact List.mem_append_left _ hq
      exact ih p1 paths' h q hq1

theorem containerValidDevicesLoop_disk_path (env : DeviceEnv) (devs : DevMap)
    (n1 : String) (m1 : SMap)
    (hmem : (n1, m1) ∈ devs) (htype : mGet m1 "type" = "disk") :
    ∀ paths0 paths', containerValidDevicesLoop env false paths0 devs = .ok paths' →
      mGet m1 "path" ∈ paths' := by
  induction devs with
  | nil => cases hmem
  | cons d rest ih =>
    intro paths0 paths' h
    obtain ⟨n, m⟩ := d
    unfold containerValidDevicesLoop at h
    cases hone : containerValidDevicesOne env false paths0 n m with
    | error e => rw [hone] at h; exact absurd h (by simp)
    | ok p1 =>
      rw [hone] at h
      rcases List.mem_cons.mp hmem with heq | hmem2
      · obtain ⟨e1, e2⟩ := Prod.mk.injEq .. ▸ heq
        subst e1; subst e2
        have h1 : mGet m1 "path" ∈ p1 :=
          containerValidDevicesOne_ok_disk env paths0 n1 m1 p1 htype hone
        exact containerValidDevicesLoop_mono env false rest p1 paths' h _ h1
      · exact ih hmem2 p1 paths' h

theorem containerValidDevicesOne_dup (env : DeviceEnv) (paths : List String)
    (name : String) (m : SMap)
    (htype : mGet m "type" = "disk") (hmem : paths.contains (mGet m "path") = true) :
    (∃ e, containerValidDevicesOne env false paths name m = .error e) ∧
    (deviceKeyLoop "disk" m = .ok () →
      containerValidDevicesOne env false paths name m =
        .error (.other ("More than one disk device uses the same path: " ++ mGet m "path" ++ "."))) := by
  have hp : mGet m "path" ∈ paths := by simpa using hmem
  constructor
  · cases hkl : deviceKeyLoop "disk" m with
    | error e =>
      exact ⟨e, by simp [containerValidDevicesOne, htype, deviceTypes, hkl]⟩
    | ok u =>
      exact ⟨.other ("More than one disk device uses the same path: " ++ mGet m "path" ++ "."),
        by simp [containerValidDevicesOne, htype, deviceTypes, hkl,
          deviceDiskChecks, diskDupCheck, hmem, hp]⟩
  · intro hkl
    simp [containerValidDevicesOne, htype, deviceTypes, hkl,
      deviceDiskChecks, diskDupCheck, hmem, hp]

theorem containerValidDevices_loop_error (env : DeviceEnv) (devs : DevMap)
    (profile expanded : Bool) (e : Err)
    (h : containerValidDevicesLoop env expanded [] devs = .error e) :
    containerValidDevices env (some devs) profile expanded = .error e := by
  simp only [containerValidDevices]
  rw [h]

/-- C10 counterexample: two disk devices with the equal path "/data" (both
lacking a source) are rejected, but with the missing-source error of the
first device — not the duplicate-path error the claim names. -/
theorem c10_counterexample :
    containerValidDevices exDevEnv
      (some [("a", [("type", "disk"), ("path", "/data")]),
             ("b", [("type", "disk"), ("path", "/data")])]) false false =
      .error (.other "Disk entry is missing the required \"source\" property.") ∧
    containerValidDevices exDevEnv
      (some [("a", [("type", "disk"), ("path", "/data")]),
             ("b", [("type", "disk"), ("path", "/data")])]) false false ≠
      .error (.other "More than one disk device uses the same path: /data.") := by
  refine ⟨by rfl, by decide⟩

/-- C10 amended: with expanded=false, a device map holding two disk devices
with equal path values is always rejected; the error is the
duplicate-path error whenever everything iterated before the second
occurrence passes its checks and the second device's keys are valid
(otherwise the reported error is that of an earlier failing check). With
expanded=true the duplicate-path bookkeeping is skipped entirely: it
accepts and returns the accumulator unchanged. -/
theorem c10_amended (env : DeviceEnv) (profile : Bool)
    (pre mid post : DevMap) (n1 n2 : String) (m1 m2 : SMap)
    (ht1 : mGet m1 "type" = "disk") (ht2 : mGet m2 "type" = "disk")
    (hpath : mGet m1 "path" = mGet m2 "path") :
    (∃ e, containerValidDevices env
      (some (pre ++ (n1, m1) :: mid ++ (n2, m2) :: post)) profile false = .error e) ∧
    (∀ paths, containerValidDevicesLoop env false [] (pre ++ (n1, m1) :: mid) = .ok paths →
      deviceKeyLoop "disk" m2 = .ok () →
      containerValidDevices env (some (pre ++ (n1, m1) :: mid ++ (n2, m2) :: post)) profile false =
        .error (.other ("More than one disk device uses the same path: " ++ mGet m2 "path" ++ "."))) ∧
    (∀ (paths : List String) (md : SMap), diskDupCheck true paths md = .ok paths) := by
  have hA : (n1, m1) ∈ pre ++ (n1, m1) :: mid := by simp
  refine ⟨?_, ?_, ?_⟩
  · cases hloopA : containerValidDevicesLoop env false [] (pre ++ (n1, m1) :: mid) with
    | error e =>
      have hwhole : containerValidDevicesLoop env false []
          ((pre ++ (n1, m1) :: mid) ++ ((n2, m2) :: post)) = .error e := by
        rw [containerValidDevicesLoop_append, hloopA]
      exact ⟨e, containerValidDevices_loop_error env _ profile false e hwhole⟩
    | ok paths =>
      have hp : mGet m2 "path" ∈ paths :=
        hpath ▸ containerValidDevicesLoop_disk_path env _ n1 m1 hA ht1 [] paths hloopA
      have hc : paths.contains (mGet m2 "path") = true := by simpa using hp
      obtain ⟨e, he⟩ := (containerValidDevicesOne_dup env paths n2 m2 ht2 hc).1
      have hwhole : containerValidDevicesLoop env false []
          ((pre ++ (n1, m1) :: mid) ++ ((n2, m2) :: post)) = .error e := by
        rw [containerValidDevicesLoop_append, hloopA]
        show containerValidDevicesLoop env false paths ((n2, m2) :: post) = .error e
        unfold containerValidDevicesLoop
        rw [he]
      exact ⟨e, containerValidDevices_loop_error env _ profile false e hwhole⟩
  · intro paths hpre hkl
    have hp : mGet m2 "path" ∈ paths :=
      hpath ▸ containerValidDevicesLoop_disk_path env _ n1 m1 hA ht1 [] paths hpre
    have hc : paths.contains (mGet m2 "path") = true := by simpa using hp
    have he := (containerValidDevicesOne_dup env paths n2 m2 ht2 hc).2 hkl
    have hwhole : containerValidDevicesLoop env false []
        ((pre ++ (n1, m1) :: mid) ++ ((n2, m2) :: post)) =
        .error (.other ("More than one disk device uses the same path: " ++ mGet m2 "path" ++ ".")) := by
      rw [containerValidDevicesLoop_append, hpre]
      show containerValidDevicesLoop env false paths ((n2, m2) :: post) = _
      unfold containerValidDevicesLoop
      rw [he]
    exact containerValidDevices_loop_error env _ profile false _ hwhole
  · intro paths md
    rfl

/-- Witness for the amended C10: two otherwise-valid disks sharing the path
"/data" produce the duplicate-path error; the expanded-mode bookkeeping
returns its accumulator unchanged. -/
theorem c10_witness :
    (∃ e, containerValidDevices exDevEnv
      (some [("a", [("type", "disk"), ("path", "/data"), ("source", "s1")]),
             ("b", [("type", "disk"), ("path", "/data"), ("source", "s2")])]) false false =
      .error e) ∧
    containerValidDevices exDevEnv
      (some [("a", [("type", "disk"), ("path", "/data"), ("source", "s1")]),
             ("b", [("type", "disk"), ("path", "/data"), ("source", "s2")])]) false false =
      .error (.other ("More than one disk device uses the same path: " ++
        mGet [("type", "disk"), ("path", "/data"), ("source", "s2")] "path" ++ ".")) ∧
    diskDupCheck true ["/x"] [("path", "/y")] = .ok ["/x"] :=
  have h := c10_amended exDevEnv false [] [] []
    "a" "b" [("type", "disk"), ("path", "/data"), ("source", "s1")]
    [("type", "disk"), ("path", "/data"), ("source", "s2")] rfl rfl rfl
  ⟨h.1, h.2.1 ["/data"] rfl rfl, h.2.2 ["/x"] [("path", "/y")]⟩

/-! ## Claim C1 -/

theorem containerCreateSetDefaults_name (env : Env) (a : ContainerArgs) :
    (containerCreateSetDefaults env a).name = a.name := by
  simp only [containerCreateSetDefaults]
  repeat' split
  all_goals rfl

theorem containerCreateValidate_ok (env : Env) (a a' : ContainerArgs)
    (h : containerCreateValidate env a = .ok a') :
    a' = containerCreateSetDefaults env a := by
  simp only [containerCreateValidate] at h
  repeat' split at h
  all_goals try exact Except.noConfusion h
  injection h with h1
  exact h1.symm

theorem containerCreateDB_ok (env : Env) (st : St) (a : ContainerArgs)
    (id : Int) (st' : St)
    (h : containerCreateDB env st a = .ok (id, st')) :
    a.name ∉ st.containers ∧
    st' = { st with containers := a.name :: st.containers } := by
  unfold containerCreateDB at h
  split at h
  · exact absurd h (by simp)
  · next hni =>
    split at h
    · exact absurd h (by simp)
    · injection h with h1
      obtain ⟨h2, h3⟩ := Prod.mk.injEq .. ▸ h1
      exact ⟨by simpa using hni, h3.symm⟩

theorem containerCreateInternal_ok (env : Env) (st : St) (args0 : ContainerArgs)
    (c : Ctr) (st' : St)
    (h : containerCreateInternal env st args0 = (.ok c, st')) :
    c.name = args0.name ∧ args0.name ∉ st.containers ∧
    st'.containers = args0.name :: st.containers ∧ st'.backups = st.backups := by
  simp only [containerCreateInternal] at h
  cases hv : containerCreateValidate env args0 with
  | error e => rw [hv] at h; simp at h
  | ok argsV =>
    rw [hv] at h
    simp only [] at h
    have hnm : argsV.name = args0.name := by
      rw [containerCreateValidate_ok env args0 argsV hv, containerCreateSetDefaults_name]
    cases hdb : containerCreateDB env st argsV with
    | error e =>
      rw [hdb] at h
      cases e <;> simp at h
    | ok pr =>
      obtain ⟨id, st1⟩ := pr
      rw [hdb] at h
      simp only [] at h
      obtain ⟨hfresh, hst1⟩ := containerCreateDB_ok env st argsV id st1 hdb
      cases hg : env.ctGet argsV.name with
      | error e => rw [hg] at h; simp at h
      | ok pr2 =>
        obtain ⟨cd, lu⟩ := pr2
        rw [hg] at h
        simp only [] at h
        cases hl : env.lxcCreate { argsV with id := id, creationDate := cd, lastUsedDate := lu } with
        | error e => rw [hl] at h; simp at h
        | ok ex =>
          rw [hl] at h
          obtain ⟨hc, hst⟩ := Prod.mk.injEq .. ▸ h
          have hcc : c = mkContainer { argsV with id := id, creationDate := cd, lastUsedDate := lu } ex := by
            injection hc with h2
            exact h2.symm
          refine ⟨?_, hnm ▸ hfresh, ?_, ?_⟩
          · rw [hcc]; simpa [mkContainer] using hnm
          · rw [← hst]; simp [emit, hst1, hnm]
          · rw [← hst]; simp [emit, hst1]

theorem copySnapLoop_ok (env : Env) (pool pname : String) (snaps : List Ctr) :
    ∀ (st : St) (cs : List Ctr) (st' : St),
    copySnapLoop env pool pname st snaps = (.ok cs, st') →
    st'.containers = (cs.map (fun c => c.name)).reverse ++ st.containers ∧
    (cs.map (fun c => c.name)).Nodup ∧
    (∀ n ∈ cs.map (fun c => c.name), n ∉ st.containers) ∧
    st'.backups = st.backups ∧ cs.length = snaps.length := by
  induction snaps with
  | nil =>
    intro st cs st' h
    unfold copySnapLoop at h
    obtain ⟨h1, h2⟩ := Prod.mk.injEq .. ▸ h
    have hcs : cs = [] := by injection h1 with h3; exact h3.symm
    subst hcs
    simp [← h2]
  | cons snap rest ih =>
    intro st cs st' h
    simp only [copySnapLoop] at h
    cases hone : containerCreateInternal env st
        { id := 0
          name := pname ++ "/" ++ snapSuffix snap.name
          architecture := snap.architecture
          baseImage := ""
          config := snap.localConfig
          ctype := .snapshot
          devices := (match snap.localDevices with
            | some d => some (rewriteSnapRoot pool d)
            | none => none)
          description := snap.description
          ephemeral := snap.ephemeral
          profiles := some snap.profiles
          stateful := false
          creationDate := 0
          lastUsedDate := 0 } with
    | mk r1 st1 =>
      rw [hone] at h
      cases r1 with
      | error e => simp at h
      | ok c0 =>
        simp only [] at h
        obtain ⟨hn0, hf0, hst1, hb1⟩ := containerCreateInternal_ok env st _ c0 st1 hone
        cases hrest : copySnapLoop env pool pname st1 rest with
        | mk r2 st2 =>
          rw [hrest] at h
          cases r2 with
          | error e => simp at h
          | ok csl =>
            have h' : ((Except.ok (c0 :: csl) : Except Err (List Ctr)), st2) =
                ((Except.ok cs : Except Err (List Ctr)), st') := h
            obtain ⟨h1, h2⟩ := Prod.mk.injEq .. ▸ h'
            have hcs : cs = c0 :: csl := by injection h1 with h3; exact h3.symm
            subst hcs
            have hst2 : st2 = st' := h2
            subst hst2
            obtain ⟨ih1, ih2, ih3, ih4, ih5⟩ := ih st1 csl st2 hrest
            have hname0 : c0.name = pname ++ "/" ++ snapSuffix snap.name := by
              simpa using hn0
            have hf0' : c0.name ∉ st.containers := by
              rw [hname0]; simpa using hf0
            have hst1' : st1.containers = c0.name :: st.containers := by
              rw [hname0]; simpa using hst1
            have hnotin : ∀ n ∈ csl.map (fun c => c.name), n ≠ c0.name ∧ n ∉ st.containers := by
              intro n hn
              have h3 := ih3 n hn
              rw [hst1'] at h3
              simp only [List.mem_cons, not_or] at h3
              exact h3
            refine ⟨?_, ?_, ?_, ?_, ?_⟩
            · rw [ih1, hst1']
              simp [List.append_assoc]
            · simp only [List.map_cons, List.nodup_cons]
              exact ⟨fun hmem => (hnotin _ hmem).1 rfl, ih2⟩
            · intro n hn
              simp only [List.map_cons, List.mem_cons] at hn
              rcases hn with rfl | hn
              · exact hf0'
              · exact (hnotin n hn).2
            · rw [ih4, hb1]
            · simp [ih5]

theorem foldl_removeName (names : List String) :
    ∀ l : List String, names.Nodup → (∀ n ∈ names, n ∉ l) →
    names.foldl removeName (names.reverse ++ l) = l := by
  induction names with
  | nil => intro l _ _; rfl
  | cons n rest ih =>
    intro l hn hd
    have hnr : n ∉ rest := (List.nodup_cons.mp hn).1
    have hnl : n ∉ l := hd n (by simp)
    simp only [List.reverse_cons, List.foldl_cons]
    have hstep : removeName ((rest.reverse ++ [n]) ++ l) n = rest.reverse ++ l := by
      rw [removeName_append, removeName_append]
      rw [removeName_of_not_mem (by simpa using hnr), removeName_of_not_mem hnl]
      simp [removeName]
    rw [hstep]
    exact ih l (List.nodup_cons.mp hn).2 (fun q hq => hd q (by simp [hq]))

theorem foldl_containerRemoveDB (cs : List Ctr) :
    ∀ st : St,
    (cs.foldl (fun a c => containerRemoveDB a c.name) st).containers =
      (cs.map (fun c => c.name)).foldl removeName st.containers ∧
    (cs.foldl (fun a c => containerRemoveDB a c.name) st).backups = st.backups ∧
    (cs.foldl (fun a c => containerRemoveDB a c.name) st).events = st.events := by
  induction cs with
  | nil => intro st; exact ⟨rfl, rfl, rfl⟩
  | cons c rest ih =>
    intro st
    simpa [containerRemoveDB] using ih { st with containers := removeName st.containers c.name }

/-- C1: in containerCreateAsCopy with containerOnly=false, when the target
record and one snapshot record per source snapshot have been reserved
(the flow reaches the storage-driver copy) and that copy fails, every one
of the N snapshot records and the target record are removed — the
catalog of container records ends exactly as it began, so zero of the
N+1 records created by this call remain — and the call returns the copy
error. -/
theorem c1_copy_failure_rolls_back (env : Env) (st0 : St) (args : ContainerArgs)
    (ct : Ctr) (st1 : St) (snaps : List Ctr) (cs : List Ctr) (st2 : St) (e : Err)
    (hct : containerCreateInternal env st0 args = (.ok ct, st1))
    (hs : env.sourceSnapshots = .ok snaps)
    (hloop : copySnapLoop env (parentPoolOf ct) ct.name st1 snaps = (.ok cs, st2))
    (hcopy : env.containerCopyErr = some e) :
    ∃ st3, containerCreateAsCopy env st0 args false = (.error e, st3) ∧
      st3.containers = st0.containers ∧ st3.backups = st0.backups ∧
      cs.length = snaps.length := by
  obtain ⟨hn, hfresh, hc1, hb1⟩ := containerCreateInternal_ok env st0 args ct st1 hct
  obtain ⟨hl1, hl2, hl3, hl4, hl5⟩ :=
    copySnapLoop_ok env (parentPoolOf ct) ct.name snaps st1 cs st2 hloop
  have hnames : ∀ n ∈ cs.map (fun c => c.name), n ∉ (args.name :: st0.containers) := by
    intro n hmem
    have h2 := hl3 n hmem
    rwa [hc1] at h2
  have hf := foldl_containerRemoveDB cs (emit st2 Event.containerCopy)
  refine ⟨containerRemoveDB
      (cs.foldl (fun a c => containerRemoveDB a c.name) (emit st2 Event.containerCopy))
      args.name, ?_, ?_, ?_, hl5⟩
  · simp only [containerCreateAsCopy, hct, hs, hloop, containerCreateAsCopyAfter,
      hcopy, Bool.false_eq_true, if_false]
  · show removeName
        (cs.foldl (fun a c => containerRemoveDB a c.name) (emit st2 Event.containerCopy)).containers
        args.name = st0.containers
    rw [hf.1]
    have hemit : (emit st2 Event.containerCopy).containers = st2.containers := rfl
    rw [hemit, hl1, hc1]
    rw [foldl_removeName (cs.map (fun c => c.name)) (args.name :: st0.containers) hl2 hnames]
    exact removeName_cons_self hfresh
  · show (cs.foldl (fun a c => containerRemoveDB a c.name) (emit st2 Event.containerCopy)).backups
        = st0.backups
    rw [hf.2.1]
    have hemit : (emit st2 Event.containerCopy).backups = st2.backups := rfl
    rw [hemit, hl4, hb1]

/-- A source snapshot for the copy example. -/
def c1Snap : Ctr :=
  { name := "src/s1", architecture := ARCH_64BIT_INTEL_X86, description := "",
    ephemeral := false, isRunning := false, statePath := "", localConfig := some [],
    localDevices := none, expandedDevices := [], profiles := ["default"] }

/-- An environment with one source snapshot whose storage copy fails. -/
def c1Env : Env :=
  { exEnv with sourceSnapshots := .ok [c1Snap],
               containerCopyErr := some (.other "copy failed") }

/-- Witness for C1: copying "src" (one snapshot) to "c2" with a failing
storage copy returns the copy error and restores the catalog exactly. -/
theorem c1_witness :
    ∃ st3, containerCreateAsCopy c1Env exSt exArgs false =
        (.error (.other "copy failed"), st3) ∧
      st3.containers = exSt.containers ∧ st3.backups = exSt.backups ∧
      (1 : Nat) = 1 :=
  c1_copy_failure_rolls_back c1Env exSt exArgs _ _ _ _ _ _ rfl rfl rfl rfl

end LXD
